import Mathlib

/-!
Verification development for the Pop-maker label composition and layout
engine (`src/components/PopPreview.tsx`, most recent variant, together with
the data model in `src/data/products.ts`, `src/data/templates.ts` and
`src/components/PopSettings.tsx`).

Modelling conventions:
- JavaScript numbers are modelled as rationals (`Rat`).  Optional numeric
  fields are `Option Rat`; `Number(undefined)` is `NaN`, which is the only
  non-finite value these fields can take here, so `Number.isFinite` becomes
  `Option.isSome`.
- Canvas text measurement (fabric `getScaledWidth`, `getScaledHeight`,
  `Textbox.textLines`) is an injected oracle (`TextMeasure`), exactly the
  dependency the code takes on the font engine.
- Geometry (left/top coordinates, heights used only to advance the vertical
  cursor) is not modelled: no claim mentions coordinates.  What is modelled
  exactly is the sequence of emitted primitives, their text content, font
  sizes, font weights and fill colors, and every branch condition of the
  source.
- Loops that decrement a rational by a fixed step are written with an
  explicit fuel that is provably at least the number of iterations the
  source loop performs, so the Lean function and the loop agree.
-/

/-- Character-list prefix test (used to model JavaScript substring search). -/
def charsPrefix : List Char → List Char → Bool
  | [], _ => true
  | _ :: _, [] => false
  | a :: as, b :: bs => a == b && charsPrefix as bs

/-- JavaScript `s.includes(pat)`: `pat` occurs contiguously inside `s`. -/
def strContains (s pat : String) : Bool :=
  (List.range (s.data.length + 1)).any (fun i => charsPrefix pat.data (s.data.drop i))

/-- JavaScript string truthiness for an optional string field:
`undefined` and the empty string are falsy. -/
def strTruthy : Option String → Bool
  | none => false
  | some s => !(s == "")

/-- JavaScript `a || b` on two optional string fields. -/
def jsOrStr (a b : Option String) : Option String :=
  if strTruthy a then a else b

/-- JavaScript `toUpperCase` (ASCII range, character by character; written
with a structural list map so that it evaluates inside the kernel). -/
def jsToUpper (s : String) : String :=
  String.mk (s.data.map Char.toUpper)

/-- Group a digit string in blocks of three, least significant first
(input and output are reversed digit lists). -/
def groupRev : List Char → List Char
  | d1 :: d2 :: d3 :: d4 :: rest => d1 :: d2 :: d3 :: '.' :: groupRev (d4 :: rest)
  | l => l

/-- Thousands grouping with a dot separator, as `Intl.NumberFormat` with the
`id-ID` locale renders integer parts. -/
def groupThousands (digits : String) : String :=
  String.mk ((groupRev digits.data.reverse).reverse)

/-- Left-pad a numeral string with zeros to the given width. -/
def padZeros (width : Nat) (s : String) : String :=
  String.mk (List.replicate (width - s.length) '0') ++ s

/-- Drop trailing zero characters. -/
def dropTrailingZeros (s : String) : String :=
  String.mk ((s.data.reverse.dropWhile (· == '0')).reverse)

/-- `formatPrice` from `src/data/products.ts`:
`new Intl.NumberFormat('id-ID').format(price)` — thousands grouped with `.`,
up to three fraction digits (default `maximumFractionDigits`), rounded half
away from zero, fraction separated by `,`, trailing fraction zeros dropped. -/
def formatPrice (price : ℚ) : String :=
  let n : ℤ := ⌊|price| * 1000 + mkRat 1 2⌋
  let ip : ℕ := (n / 1000).toNat
  let fr : ℕ := (n % 1000).toNat
  let sign := if price < 0 ∧ n ≠ 0 then "-" else ""
  let base := groupThousands (toString ip)
  if fr = 0 then sign ++ base
  else sign ++ base ++ "," ++ dropTrailingZeros (padZeros 3 (toString fr))

/-- JavaScript `value.toFixed(2)`: the integer `n` with `n / 100` closest to
the value, ties toward positive infinity, printed with exactly two fraction
digits. -/
def toFixed2 (q : ℚ) : String :=
  let n : ℤ := ⌊q * 100 + mkRat 1 2⌋
  let a : ℕ := n.natAbs
  (if n < 0 then "-" else "") ++ toString (a / 100) ++ "." ++ padZeros 2 (toString (a % 100))

/-- The first replace of `formatPercentValue`: `replace(/\.00$/, '')`. -/
def stripDot00 (s : String) : String :=
  match s.data.reverse with
  | '0' :: '0' :: '.' :: rest => String.mk rest.reverse
  | _ => s

/-- The second replace of `formatPercentValue`: a trailing zero preceded by a
dot and one digit is dropped (regular expression `(\.\d)0$`). -/
def stripTrailZero (s : String) : String :=
  match s.data.reverse with
  | '0' :: d :: '.' :: rest => if d.isDigit then String.mk (d :: '.' :: rest).reverse else s
  | _ => s

/-- `formatPercentValue` from `drawPOPItem`:
`value.toFixed(2).replace(/\.00$/, '').replace(/(\.\d)0$/, '$1')`. -/
def formatPercentValue (value : ℚ) : String :=
  stripTrailZero (stripDot00 (toFixed2 value))

/-! ## Text fitting utilities (`fitTextToLines`, `fitTextToWidth`,
`fitFontSizeToWidth` inside `drawPOPItem`) -/

/-- Loop body of `fitTextToLines`: while the size is above the floor,
decrement by one, re-measure, and stop as soon as the text fits.  The final
font size left on the box is returned. -/
def fitTextToLinesAux (lines : ℚ → ℕ) (maxLines : ℕ) (minSize : ℚ) : ℕ → ℚ → ℚ
  | 0, size => size
  | fuel + 1, size =>
    if minSize < size then
      let size' := size - 1
      if lines size' ≤ maxLines then size'
      else fitTextToLinesAux lines maxLines minSize fuel size'
    else size

/-- `fitTextToLines` from `drawPOPItem` (the box text and width are fixed, so
the wrapped line count is a function of the font size alone).  Returns the
font size the box is left with. -/
def fitTextToLines (lines : ℚ → ℕ) (maxLines : ℕ) (baseSize : ℚ) : ℚ :=
  if lines baseSize ≤ maxLines then baseSize
  else
    let minSize := max 12 (baseSize * mkRat 7 10)
    fitTextToLinesAux lines maxLines minSize (⌈baseSize - minSize⌉.toNat + 1) baseSize

/-- Loop of `fitTextToWidth`: decrement while the size is above the minimum
and the measured width still exceeds the budget. -/
def fitTextToWidthAux (measure : ℚ → ℚ) (maxWidth minSize : ℚ) : ℕ → ℚ → ℚ
  | 0, size => size
  | fuel + 1, size =>
    if minSize < size ∧ maxWidth < measure size then
      fitTextToWidthAux measure maxWidth minSize fuel (size - 1)
    else size

/-- `fitTextToWidth` from `drawPOPItem`: the measure argument is the width of
the fixed text at the given font size (weight 700 at call sites). -/
def fitTextToWidth (measure : ℚ → ℚ) (maxWidth baseSize minSize : ℚ) : ℚ :=
  fitTextToWidthAux measure maxWidth minSize (⌈baseSize - minSize⌉.toNat) baseSize

/-- Loop of `fitFontSizeToWidth` (badge text fitting): measure first, return
the current size when it fits, otherwise decrement; when the floor is
reached the floor itself is returned. -/
def fitFontSizeToWidthAux (measure : ℚ → ℚ) (maxWidth minSize : ℚ) : ℕ → ℚ → ℚ
  | 0, _ => minSize
  | fuel + 1, size =>
    if minSize < size then
      if measure size ≤ maxWidth then size
      else fitFontSizeToWidthAux measure maxWidth minSize fuel (size - 1)
    else minSize

/-! ## Data model -/

/-- `discountType?: 'percent' | 'cut'` on `Product`. -/
inductive DiscountType
  | percent
  | cut
deriving DecidableEq

/-- One alternate price row.  Modelled from the spec: the
`CustomPriceOption` interface itself is not under `src/` (only its import
and uses in `PopPreview.tsx` are); per spec sections 3 and 4.1 a price row
is a unit-of-measure plus a normal/promo price pair.  With the price fields
total, the defensive `?? 0` in the row filter is the identity. -/
structure CustomPriceOption where
  uom : Option String
  normalPrice : ℚ
  promoPrice : ℚ
deriving DecidableEq

/-- The `Product` interface from `src/data/products.ts` (most recent
variant), restricted to the fields the rendering core reads.  Optional
numeric fields are `Option` of a rational. -/
structure Product where
  sku : String
  name : String
  normalPrice : ℚ
  promoPrice : ℚ
  discount : ℚ
  brand : Option String := none
  brandSegment : Option String := none
  descSegment : Option String := none
  discountType : Option DiscountType := none
  discountAmount : Option ℚ := none
  description : Option String := none
  extraDiscount : Option ℚ := none
  disc2 : Option ℚ := none
  disc3 : Option ℚ := none
  memberDiscount : Option ℚ := none
  upTo : Option Bool := none
  uom : Option String := none
  basePricePerMeter : Option ℚ := none
  finalPricePerMeter : Option ℚ := none
  isCustom : Option Bool := none
  customPriceOptions : Option (List CustomPriceOption) := none
deriving DecidableEq

/-- `layout: '1' | '2' | '4'` from `PopSettingsState`. -/
inductive LayoutTier
  | one
  | two
  | four
deriving DecidableEq

/-- `PopSettingsState` from `src/components/PopSettings.tsx`. -/
structure PopSettingsState where
  showStrikePrice : Bool
  showDiscount : Bool
  showBarcode : Bool
  layout : LayoutTier
deriving DecidableEq

/-- `type?: 'default' | 'custom'` on `Template`. -/
inductive TemplateKind
  | dflt
  | custom
deriving DecidableEq

/-- The `Template` interface from `src/data/templates.ts`, restricted to the
fields the renderer reads (`type` and `imageUrl`). -/
structure Template where
  id : String
  name : String
  ttype : Option TemplateKind := none
  imageUrl : Option String := none
deriving DecidableEq

/-- The source chain `settings.layout === '4' ? a : settings.layout === '2' ? b : c`. -/
def layoutPick (s : PopSettingsState) (a b c : ℚ) : ℚ :=
  match s.layout with
  | .four => a
  | .two => b
  | .one => c

/-- `groupScale` in `drawPOPItem`:
`(settings.layout === '4' ? 1.1 : settings.layout === '2' ? 1.16 : 1.22) * 1.05`. -/
def groupScaleOf (s : PopSettingsState) : ℚ :=
  layoutPick s 1.1 1.16 1.22 * 1.05

/-- `contentWidth` in `drawPOPItem`. -/
def contentWidthOf (s : PopSettingsState) (itemWidth : ℚ) : ℚ :=
  itemWidth * layoutPick s 0.74 0.84 0.88

/-! ## Drawable primitives -/

/-- Fill of a rectangle: solid color or a two-stop linear gradient. -/
inductive Fill
  | solid (color : String)
  | linearGradient (c1 c2 : String)
deriving DecidableEq

/-- A drawable primitive as emitted by `drawPOPItem`.  Coordinates are not
modelled; text content, font size, weight and fill are. -/
inductive Prim
  | rect (fill : Fill)
  | textRun (content : String) (fontSize : ℚ) (fontWeight : String) (fill : String)
  | line (stroke : String)
deriving DecidableEq

/-- The fabric `Group` returned by `drawPOPItem`: its ordered object list
(`Group` itself is taken by Mathlib). -/
structure FabricGroup where
  objects : List Prim
deriving DecidableEq

/-- The text-measurement oracle supplied by the canvas font engine:
`width text fontSize fontWeight` is `getScaledWidth` of a fabric text,
`textboxLines text boxWidth fontSize` the wrapped line count of a textbox. -/
structure TextMeasure where
  width : String → ℚ → String → ℚ
  textboxLines : String → ℚ → ℚ → ℕ

/-! ## Price and discount resolution (prelude of `drawPOPItem`) -/

/-- `const baseDiscount = product.discount ?? 0` (the field is required). -/
def baseDiscount (p : Product) : ℚ := p.discount

/-- `const disc2Raw = product.extraDiscount ?? product.disc2 ?? 0`
(nullish coalescing: a present zero is kept). -/
def disc2Raw (p : Product) : ℚ :=
  match p.extraDiscount with
  | some v => v
  | none => p.disc2.getD 0

/-- `const disc3Raw = product.disc3 ?? 0`. -/
def disc3Raw (p : Product) : ℚ := p.disc3.getD 0

/-- `const rawDisc4 = product.memberDiscount ?? 0`. -/
def rawDisc4 (p : Product) : ℚ := p.memberDiscount.getD 0

/-- `const isDisc4MemberValue = rawDisc4 === 2 || rawDisc4 === 3`. -/
def isDisc4MemberValue (p : Product) : Bool :=
  rawDisc4 p == 2 || rawDisc4 p == 3

/-- `const useDisc4AsMember = product.isCustom ? rawDisc4 > 0 : isDisc4MemberValue`. -/
def useDisc4AsMember (p : Product) : Bool :=
  if p.isCustom.getD false then decide (0 < rawDisc4 p) else isDisc4MemberValue p

/-- `const memberRaw = useDisc4AsMember ? rawDisc4 : 0`. -/
def memberRaw (p : Product) : ℚ :=
  if useDisc4AsMember p then rawDisc4 p else 0

/-- `const disc4AsDiscountRaw = useDisc4AsMember ? 0 : rawDisc4`. -/
def disc4AsDiscountRaw (p : Product) : ℚ :=
  if useDisc4AsMember p then 0 else rawDisc4 p

/-- `const discountAmount = product.discountAmount ?? 0`. -/
def discountAmountVal (p : Product) : ℚ := p.discountAmount.getD 0

/-- The fallback single price row built from the flat product fields. -/
def defaultPriceRow (p : Product) : CustomPriceOption :=
  { uom := p.uom, normalPrice := p.normalPrice, promoPrice := p.promoPrice }

/-- `priceRows` in `drawPOPItem`: the declared rows when present and
nonempty, else the fallback row, filtered to rows with a positive normal or
promo price. -/
def priceRows (p : Product) : List CustomPriceOption :=
  (match p.customPriceOptions with
    | some opts => if 0 < opts.length then opts else [defaultPriceRow p]
    | none => [defaultPriceRow p]).filter
    (fun row => decide (0 < row.normalPrice) || decide (0 < row.promoPrice))

/-- `primaryPrice = priceRows[0] ?? fallback`. -/
def primaryPrice (p : Product) : CustomPriceOption :=
  (priceRows p).headD (defaultPriceRow p)

/-- `hasAnyDiscount` in `drawPOPItem`. -/
def hasAnyDiscount (p : Product) : Bool :=
  decide (0 < baseDiscount p) || decide (0 < disc2Raw p) || decide (0 < disc3Raw p) ||
    decide (0 < disc4AsDiscountRaw p) || decide (0 < memberRaw p) ||
    decide (0 < discountAmountVal p)

/-- `hasNoPrice = priceRows.length === 0`. -/
def hasNoPrice (p : Product) : Bool := priceRows p == []

/-- `isDiscountOnly = hasAnyDiscount && hasNoPrice`. -/
def isDiscountOnly (p : Product) : Bool := hasAnyDiscount p && hasNoPrice p

/-- `graniteLabel`: description segment and description joined with a space
and uppercased (JavaScript `toUpperCase`, ASCII here). -/
def graniteLabel (p : Product) : String :=
  jsToUpper ((p.descSegment.getD "") ++ " " ++ (p.description.getD ""))

/-- `isGranite = graniteLabel.includes('GRANIT')`. -/
def isGranite (p : Product) : Bool := strContains (graniteLabel p) "GRANIT"

/-- `meterBase = Number(product.basePricePerMeter)` with `NaN` for a missing
field; the value is only consumed under `hasMeterPrice`. -/
def meterBase (p : Product) : ℚ := p.basePricePerMeter.getD 0

/-- `meterFinal = Number(product.finalPricePerMeter)`. -/
def meterFinal (p : Product) : ℚ := p.finalPricePerMeter.getD 0

/-- `hasMeterPrice = Number.isFinite(meterFinal) && Number.isFinite(meterBase)`:
a missing field gives `NaN`, the only non-finite value possible here. -/
def hasMeterPrice (p : Product) : Bool :=
  p.finalPricePerMeter.isSome && p.basePricePerMeter.isSome

/-- `cutValue` in `drawPOPItem`: the flat amount when the discount type is
`cut`, else the base percent when it exceeds 100, else zero. -/
def cutValue (p : Product) : ℚ :=
  if p.discountType == some .cut then discountAmountVal p
  else if 100 < baseDiscount p then baseDiscount p
  else 0

/-! ## Price blocks (`renderStrikePrice`, `renderPriceBlock`) -/

/-- `renderStrikePrice` in `drawPOPItem`: nothing when the strike toggle is
off or the price is falsy; otherwise the red struck price text, an optional
unit suffix, and the strike line. -/
def renderStrikePrice (s : PopSettingsState) (groupScale : ℚ)
    (price : ℚ) (uomLabel : Option String) (scale : ℚ) : List Prim :=
  if !s.showStrikePrice || price == 0 then []
  else
    let strikeFontSize := layoutPick s 18 20 22 * groupScale * scale
    [Prim.textRun ("Rp " ++ formatPrice price) strikeFontSize "normal" "#dc2626"] ++
      (if strTruthy uomLabel then
        [Prim.textRun ("/" ++ uomLabel.getD "") (max 10 (strikeFontSize * 0.7)) "600" "#6b7280"]
      else []) ++
      [Prim.line "#dc2626"]

/-- The combined measured width of one price block at a given size scale
(`measureWidth` inside `renderPriceBlock`). -/
def priceBlockWidth (M : TextMeasure) (groupScale priceSize : ℚ)
    (mainPrice tailDigits : String) (uomLabel : Option String) (sizeScale : ℚ) : ℚ :=
  let localPrice := priceSize * sizeScale
  let localCurrency := max 12 (localPrice * 0.4)
  let localUomSize := max 10 (localPrice * 0.22)
  let gapMain := 6 * groupScale * sizeScale
  let gapTail := if tailDigits == "" then 0 else 4 * groupScale * sizeScale
  let currencyWidth := M.width "Rp." localCurrency "700"
  let promoWidth := M.width mainPrice localPrice "900"
  let tailWidth := if tailDigits == "" then 0
    else M.width ("." ++ tailDigits) (max 10 (localPrice * 0.35)) "800"
  let uomWidth := if strTruthy uomLabel then M.width ("/" ++ uomLabel.getD "") localUomSize "600"
    else 0
  currencyWidth + gapMain + promoWidth + gapTail + max tailWidth uomWidth

/-- The size-scale reduction loop of `renderPriceBlock`: step the scale down
by 0.04 (clamped at 0.6) while the measured block width exceeds the budget. -/
def fitScaleAux (measure : ℚ → ℚ) (maxWidth : ℚ) : ℕ → ℚ → ℚ
  | 0, s => s
  | fuel + 1, s =>
    if 0.6 < s ∧ maxWidth < measure s then
      fitScaleAux measure maxWidth fuel (max 0.6 (s - 0.04))
    else s

/-- The fitted size scale of `renderPriceBlock` (identity when no maximum
width is supplied). -/
def fitScale (measure : ℚ → ℚ) (maxWidth : Option ℚ) (scale : ℚ) : ℚ :=
  match maxWidth with
  | none => scale
  | some mw => fitScaleAux measure mw (⌈(scale - 0.6) * 25⌉.toNat + 1) scale

/-- Split a formatted price at its last dot (`lastIndexOf('.')`), into the
main digits and the tail digits; `none` when there is no dot. -/
def lastDotSplit (s : String) : Option (String × String) :=
  let r := s.data.reverse
  let tailRev := r.takeWhile (fun c => c != '.')
  match r.dropWhile (fun c => c != '.') with
  | [] => none
  | _ :: before => some (String.mk before.reverse, String.mk tailRev.reverse)

/-- `renderPriceBlock` in `drawPOPItem`: the blue currency prefix, main
digits, optional tail digits and optional unit suffix, with the whole block
scaled down in 0.04 steps (floor 0.6) until it fits the supplied width. -/
def renderPriceBlock (M : TextMeasure) (groupScale priceSize : ℚ)
    (price : ℚ) (uomLabel : Option String) (scale : ℚ) (maxWidth : Option ℚ) : List Prim :=
  let formattedPrice := formatPrice price
  let mainPrice := match lastDotSplit formattedPrice with
    | some (m, _) => m
    | none => formattedPrice
  let tailDigits := match lastDotSplit formattedPrice with
    | some (_, t) => t
    | none => ""
  let sizeScale :=
    fitScale (priceBlockWidth M groupScale priceSize mainPrice tailDigits uomLabel) maxWidth scale
  let localPriceSize := priceSize * sizeScale
  let localCurrencySize := max 12 (localPriceSize * 0.4)
  [Prim.textRun "Rp." localCurrencySize "700" "#0284c7",
   Prim.textRun mainPrice localPriceSize "900" "#0284c7"] ++
    (if tailDigits == "" then []
     else [Prim.textRun ("." ++ tailDigits) (max 10 (localPriceSize * 0.35)) "800" "#0284c7"]) ++
    (if strTruthy uomLabel then
      [Prim.textRun ("/" ++ uomLabel.getD "") (max 10 (localPriceSize * 0.22)) "600" "#0284c7"]
     else [])

/-! ## Price area (granite, multi-row and single-row branches) -/

/-- The branch condition guarding the granite two-column layout:
`!isDiscountOnly && isGranite && hasMeterPrice && priceRows.length <= 1`. -/
def graniteBranchTaken (p : Product) : Bool :=
  !isDiscountOnly p && isGranite p && hasMeterPrice p && decide ((priceRows p).length ≤ 1)

/-- The granite two-column emission: optional strike prices for both columns,
then the per-unit and per-meter price blocks. -/
def granitePrims (M : TextMeasure) (s : PopSettingsState)
    (groupScale contentWidth priceSize : ℚ) (p : Product) : List Prim :=
  let graniteBaseScale := layoutPick s 1 1.06 1.12
  let graniteScale := if hasAnyDiscount p then graniteBaseScale else graniteBaseScale * 1.12
  let columnGap := max (20 * groupScale) (contentWidth * 0.1)
  let columnWidth := (contentWidth - columnGap) / 2
  let strikeScale := graniteScale * 0.9
  (if hasAnyDiscount p then
    renderStrikePrice s groupScale (primaryPrice p).normalPrice (primaryPrice p).uom strikeScale ++
      renderStrikePrice s groupScale (meterBase p) (some "Mtr") strikeScale
   else []) ++
    renderPriceBlock M groupScale priceSize (primaryPrice p).promoPrice (primaryPrice p).uom
      graniteScale (some columnWidth) ++
    renderPriceBlock M groupScale priceSize (meterFinal p) (some "Mtr")
      graniteScale (some columnWidth)

/-- The per-row emission of the multi-row branch: an optional strike price
(only when the strike toggle is on and the normal price beats the effective
promo), then the promo block showing the effective promo price. -/
def multiRowRowPrims (M : TextMeasure) (s : PopSettingsState)
    (groupScale contentWidth priceSize rowScale strikeScale : ℚ)
    (row : CustomPriceOption) : List Prim :=
  let effectivePromo := if 0 < row.promoPrice then row.promoPrice else row.normalPrice
  let hasStrike := s.showStrikePrice && decide (0 < row.normalPrice) &&
    decide (effectivePromo < row.normalPrice)
  (if hasStrike then renderStrikePrice s groupScale row.normalPrice row.uom strikeScale
   else []) ++
    renderPriceBlock M groupScale priceSize effectivePromo row.uom rowScale
      (some (contentWidth * 0.9))

/-- The multi-row branch: each surviving row in order, with a separator line
after every row but the last. -/
def multiRowPrims (M : TextMeasure) (s : PopSettingsState)
    (groupScale contentWidth priceSize : ℚ) (p : Product) : List Prim :=
  let rows := priceRows p
  let rowScale : ℚ := if 3 ≤ rows.length then 0.58 else 0.72
  let strikeScale := rowScale * 0.48
  (rows.enum.map (fun iRow =>
      multiRowRowPrims M s groupScale contentWidth priceSize rowScale strikeScale iRow.2 ++
        (if iRow.1 < rows.length - 1 then [Prim.line "#e5e7eb"] else []))).flatten

/-- The single-row branch: an optional strike price when any discount
exists, then one promo block at the boosted scale. -/
def singleRowPrims (M : TextMeasure) (s : PopSettingsState)
    (groupScale contentWidth priceSize : ℚ) (p : Product) : List Prim :=
  (if hasAnyDiscount p then
    renderStrikePrice s groupScale (primaryPrice p).normalPrice (primaryPrice p).uom 1
   else []) ++
    (let nonGraniteScale : ℚ := if hasAnyDiscount p then 1.45 else 1.65
     renderPriceBlock M groupScale priceSize (primaryPrice p).promoPrice (primaryPrice p).uom
       nonGraniteScale (some contentWidth))

/-- The whole price area of `drawPOPItem`: granite branch, else (unless
discount-only) the multi-row or single-row branch, else nothing. -/
def priceAreaPrims (M : TextMeasure) (s : PopSettingsState)
    (groupScale contentWidth priceSize : ℚ) (p : Product) : List Prim :=
  if graniteBranchTaken p then granitePrims M s groupScale contentWidth priceSize p
  else if !isDiscountOnly p then
    if 1 < (priceRows p).length then multiRowPrims M s groupScale contentWidth priceSize p
    else singleRowPrims M s groupScale contentWidth priceSize p
  else []

/-! ## Bottom discount badge -/

/-- One badge card: label, value and the two gradient colors. -/
structure BadgeItem where
  label : String
  value : String
  colors : String × String
deriving DecidableEq

/-- `discountParts`: the four percent tiers filtered to positive values, in
declared order (base, tier 2, tier 3, tier 4 when not member). -/
def discountParts (p : Product) : List ℚ :=
  [baseDiscount p, disc2Raw p, disc3Raw p, disc4AsDiscountRaw p].filter (fun v => decide (0 < v))

/-- `discountValue`: the joined percent string of the leftmost card. -/
def discountValueStr (p : Product) : String :=
  String.intercalate " + " ((discountParts p).map (fun v => formatPercentValue v ++ "%"))

/-- `discountLabel = product.upTo ? 'DISKON UP TO' : 'DISKON'`. -/
def discountLabelStr (p : Product) : String :=
  if p.upTo.getD false then "DISKON UP TO" else "DISKON"

/-- `items` of the percent badge: the aggregated percent card when any tier
is positive, then the member card when the member percent is positive. -/
def badgeItems (p : Product) : List BadgeItem :=
  (if (discountParts p).length > 0 then
    [({ label := discountLabelStr p, value := discountValueStr p,
        colors := ("#ef4444", "#ef4444") } : BadgeItem)]
   else []) ++
    (if 0 < memberRaw p then
      [({ label := "MEMBER", value := formatPercentValue (memberRaw p) ++ "%",
          colors := ("#1d4ed8", "#60a5fa") } : BadgeItem)]
     else [])

/-- `fitFontSizeToWidth` of the percent badge, measuring at weight 800. -/
def fitFontSizeToWidth (M : TextMeasure) (text : String)
    (initialSize maxWidth minSize : ℚ) : ℚ :=
  fitFontSizeToWidthAux (fun sz => M.width text sz "800") maxWidth minSize
    (⌈initialSize - minSize⌉.toNat + 1) initialSize

/-- The flat-cut badge card: outer card, solid red header, the
`POTONGAN HARGA` header text and the flat amount below it. -/
def flatCutBadgePrims (s : PopSettingsState) (groupScale : ℚ)
    (discountOnly : Bool) (amount : ℚ) : List Prim :=
  [Prim.rect (.solid "#f8fafc"),
   Prim.rect (.linearGradient "#ef4444" "#ef4444"),
   Prim.textRun "POTONGAN HARGA"
     (layoutPick s 12 13 14 * groupScale * (if discountOnly then 1.4 else 1)) "800" "#ffffff",
   Prim.textRun ("Rp " ++ formatPrice amount)
     (layoutPick s 26 31 38 * groupScale * (if discountOnly then 1.8 else 1)) "800" "#4b5563"]

/-- The `rowWidth` of the percent badge (a single card is sized to its
measured text, clamped between 40 and 100 percent of the content width). -/
def percentBadgeRowWidth (M : TextMeasure) (groupScale contentWidth : ℚ)
    (discountOnly : Bool) (labelFontSize valueFontSize : ℚ) (items : List BadgeItem) : ℚ :=
  let rowWidth := if items.length == 1 then contentWidth * 0.4 else contentWidth
  let rowWidth := if discountOnly then contentWidth else rowWidth
  match items with
  | [item] =>
    let labelWidth := M.width item.label labelFontSize "800"
    let valueWidth := M.width item.value valueFontSize "800"
    let textWidth := max labelWidth valueWidth
    min contentWidth (max (contentWidth * 0.4) (textWidth + 36 * groupScale))
  | _ => rowWidth

/-- One cell of the percent badge: cell card, gradient header, fitted label
and fitted value, plus a separator line for every cell after the first. -/
def percentBadgeCell (M : TextMeasure) (groupScale : ℚ)
    (labelFontSize valueFontSize cellWidth : ℚ) (itemCount : ℕ)
    (iItem : ℕ × BadgeItem) : List Prim :=
  let textMaxWidth := max 40 (cellWidth - 24 * groupScale)
  let dynamicLabelSize :=
    fitFontSizeToWidth M iItem.2.label labelFontSize textMaxWidth (max 10 (labelFontSize * 0.7))
  let dynamicValueSize :=
    fitFontSizeToWidth M iItem.2.value valueFontSize textMaxWidth (max 16 (valueFontSize * 0.5))
  [Prim.rect (.solid "#f8fafc"),
   Prim.rect (.linearGradient iItem.2.colors.1 iItem.2.colors.2),
   Prim.textRun iItem.2.label dynamicLabelSize "800" "#ffffff",
   Prim.textRun iItem.2.value dynamicValueSize "800"
     (if 1 < itemCount then "#4b5563" else "#dc2626")] ++
    (if 1 < itemCount ∧ 0 < iItem.1 then [Prim.line "#e5e7eb"] else [])

/-- The percent badge region: outer card then one cell per badge item
(nothing at all when no item survives, mirroring the early return). -/
def percentBadgePrims (M : TextMeasure) (s : PopSettingsState)
    (groupScale contentWidth : ℚ) (discountOnly : Bool) (p : Product) : List Prim :=
  let items := badgeItems p
  if items.length == 0 then []
  else
    let labelFontSize := layoutPick s 12 13 14 * groupScale * (if discountOnly then 1.7 else 1)
    let valueFontSize := layoutPick s 26 31 38 * groupScale * (if discountOnly then 2.2 else 1)
    let rowWidth :=
      percentBadgeRowWidth M groupScale contentWidth discountOnly labelFontSize valueFontSize items
    let cellWidth := rowWidth / items.length
    [Prim.rect (.solid "#f8fafc")] ++
      (items.enum.map
        (percentBadgeCell M groupScale labelFontSize valueFontSize cellWidth items.length)).flatten

/-- The whole bottom badge region of `drawPOPItem`: the flat-cut card when
`cutValue` is positive, else the percent badge when any percent tier or the
member percent is positive, else nothing. -/
def bottomBadgePrims (M : TextMeasure) (s : PopSettingsState)
    (groupScale contentWidth : ℚ) (p : Product) : List Prim :=
  if 0 < cutValue p then
    flatCutBadgePrims s groupScale (isDiscountOnly p) (cutValue p)
  else if 0 < baseDiscount p ∨ 0 < disc2Raw p ∨ 0 < disc3Raw p ∨
      0 < disc4AsDiscountRaw p ∨ 0 < memberRaw p then
    percentBadgePrims M s groupScale contentWidth (isDiscountOnly p) p
  else []

/-! ## Top sections and the full layout engine -/

/-- The brand section: when a brand label is truthy, one centered text run
whose size is fitted to the content width. -/
def brandPrims (M : TextMeasure) (s : PopSettingsState)
    (groupScale contentWidth : ℚ) (p : Product) : List Prim :=
  let brandLabel := jsOrStr p.brandSegment p.brand
  if strTruthy brandLabel then
    let brandSize := layoutPick s 36 39 42 * groupScale
    let brandFontSize :=
      fitTextToWidth (fun sz => M.width (brandLabel.getD "") sz "700")
        contentWidth brandSize (max 14 (brandSize * 0.65))
    [Prim.textRun (brandLabel.getD "") brandFontSize "700" "#374151"]
  else []

/-- The product name textbox: fitted to one line when a discount exists,
else two, with a 15 percent size boost when no discount exists. -/
def namePrims (M : TextMeasure) (s : PopSettingsState)
    (groupScale contentWidth : ℚ) (p : Product) : List Prim :=
  let nameBaseSize := layoutPick s 11 15 19 * groupScale
  let nameSize := if hasAnyDiscount p then nameBaseSize else nameBaseSize * 1.15
  let fitted :=
    fitTextToLines (fun sz => M.textboxLines p.name contentWidth sz)
      (if hasAnyDiscount p then 1 else 2) nameSize
  [Prim.textRun p.name fitted "700" "#111827"]

/-- The optional description textbox. -/
def descPrims (s : PopSettingsState) (groupScale contentWidth : ℚ)
    (p : Product) : List Prim :=
  let descText := jsOrStr p.descSegment p.description
  if strTruthy descText then
    [Prim.textRun (descText.getD "") (layoutPick s 12 14 16 * groupScale) "500" "#6b7280"]
  else []

/-- `drawPOPItem` (most recent variant of `PopPreview.tsx`): background card
(unless a custom template is behind), brand, name, description, divider,
price area and bottom badge, in source push order.  The function is total:
every structurally valid product yields a group. -/
def drawPOPItem (M : TextMeasure) (product : Product) (x y itemWidth itemHeight : ℚ)
    (settings : PopSettingsState) (hasCustomTemplate : Bool) : FabricGroup :=
  let groupScale := groupScaleOf settings
  let contentWidth := contentWidthOf settings itemWidth
  let priceSize := layoutPick settings 50 62 78 * groupScale
  FabricGroup.mk
    ((if !hasCustomTemplate then [Prim.rect (.solid "#ffffff")] else []) ++
      brandPrims M settings groupScale contentWidth product ++
      namePrims M settings groupScale contentWidth product ++
      descPrims settings groupScale contentWidth product ++
      [Prim.line "#e5e7eb"] ++
      priceAreaPrims M settings groupScale contentWidth priceSize product ++
      bottomBadgePrims M settings groupScale contentWidth product)

/-! ## Page renderer and export driver -/

/-- A4 width at 72 DPI. -/
def A4_WIDTH : ℚ := 595

/-- A4 height at 72 DPI. -/
def A4_HEIGHT : ℚ := 842

/-- Export scale factor for PDF/print (3x). -/
def PRINT_SCALE : ℚ := 3

/-- One object added to the page canvas. -/
inductive CanvasObject
  | templateImage (url : String)
  | popGroup (g : FabricGroup)
deriving DecidableEq

/-- The page surface after `renderPageCanvas`: its background color and the
ordered objects drawn on it. -/
structure CanvasPage where
  backgroundColor : String
  objects : List CanvasObject
deriving DecidableEq

/-- `renderPageCanvas`: clear to white; with a custom template whose image
loads, draw the scaled template image first and the product group (if any)
on top; otherwise (including image-load failure) the default path draws the
product group alone, or nothing when the product is undefined.
`loadOk` models success of `FabricImage.fromURL`. -/
def renderPageCanvas (M : TextMeasure) (loadOk : String → Bool)
    (tmpl : Template) (settings : PopSettingsState)
    (product : Option Product) : CanvasPage :=
  let itemWidth := A4_WIDTH
  let itemHeight := A4_HEIGHT
  let defaultObjs : List CanvasObject :=
    match product with
    | none => []
    | some p =>
      [CanvasObject.popGroup (drawPOPItem M p 0 0 itemWidth itemHeight settings false)]
  if tmpl.ttype == some .custom ∧ strTruthy tmpl.imageUrl then
    if loadOk (tmpl.imageUrl.getD "") then
      CanvasPage.mk "#ffffff"
        ([CanvasObject.templateImage (tmpl.imageUrl.getD "")] ++
          (match product with
            | none => []
            | some p =>
              [CanvasObject.popGroup (drawPOPItem M p 0 0 itemWidth itemHeight settings true)]))
    else CanvasPage.mk "#ffffff" defaultObjs
  else CanvasPage.mk "#ffffff" defaultObjs

/-- `totalPages = Math.max(products.length, 1)`. -/
def totalPages (products : List Product) : ℕ :=
  max products.length 1

/-- `getPageImages`: one rendered page per index from 0 to `totalPages - 1`,
each rendering `products[index]` (which is undefined past the end);
rasterization (`toDataURL`) is kept opaque, one page per bitmap. -/
def getPageImages (M : TextMeasure) (loadOk : String → Bool)
    (tmpl : Template) (settings : PopSettingsState)
    (products : List Product) : List CanvasPage :=
  (List.range (totalPages products)).map
    (fun index => renderPageCanvas M loadOk tmpl settings products[index]?)

/-! ## Concrete fixtures and primitive predicates -/

/-- A concrete measurement oracle: every text measures zero wide and wraps
to a single line. -/
def zeroMeasure : TextMeasure :=
  { width := fun _ _ _ => 0, textboxLines := fun _ _ _ => 1 }

/-- Default presentation settings (single label per page, strike price on). -/
def defaultSettings : PopSettingsState :=
  { showStrikePrice := true, showDiscount := true, showBarcode := true, layout := .one }

/-- The catalog sample product `SKU001`. -/
def sampleProduct : Product :=
  { sku := "SKU001", name := "Produk ABC", normalPrice := 50000, promoPrice := 35000,
    discount := 30 }

/-- A cut-type product whose flat amount is zero but whose percent tiers are
nonzero. -/
def cutZeroProduct : Product :=
  { sku := "CUT0", name := "Produk Cut", normalPrice := 50000, promoPrice := 50000,
    discount := 20, discountType := some .cut, discountAmount := some 0 }

/-- A cut-type product with a positive flat amount and nonzero percent
tiers. -/
def cutPosProduct : Product :=
  { sku := "CUT1", name := "Produk Cut", normalPrice := 50000, promoPrice := 50000,
    discount := 20, discountType := some .cut, discountAmount := some 15000,
    extraDiscount := some 5, disc3 := some 2, memberDiscount := some 2 }

/-- A granite product with both per-meter prices present but no positive
price row and a nonzero discount (hence discount-only). -/
def graniteDiscountOnly : Product :=
  { sku := "GR1", name := "Granit Tile", normalPrice := 0, promoPrice := 0,
    discount := 10, description := some "Granit 60x60",
    basePricePerMeter := some 100000, finalPricePerMeter := some 90000 }

/-- A product whose base discount percent has two significant decimals. -/
def percentQuarter : Product :=
  { sku := "PQ", name := "Produk", normalPrice := 50000, promoPrice := 35000,
    discount := mkRat 49 4 }

/-- A percent-type product whose base discount exceeds 100. -/
def over100Product : Product :=
  { sku := "OV", name := "Produk", normalPrice := 50000, promoPrice := 35000,
    discount := 150, discountType := some .percent }

/-- A product with two alternate price rows, the second without a positive
promo price. -/
def twoRowProduct : Product :=
  { sku := "TR", name := "Produk", normalPrice := 10000, promoPrice := 8000,
    discount := 0,
    customPriceOptions := some
      [{ uom := some "Pcs", normalPrice := 10000, promoPrice := 8000 },
       { uom := some "Dus", normalPrice := 110000, promoPrice := 0 }] }

/-- A custom template with an image URL. -/
def customTemplate : Template :=
  { id := "t1", name := "Custom", ttype := some .custom, imageUrl := some "blob:tpl" }

/-- A default (non-custom) template. -/
def defaultTemplate : Template :=
  { id := "t0", name := "Default" }

/-- Is this primitive one of the percent badge card labels
(`DISKON`, `DISKON UP TO`, `MEMBER`)? -/
def isPercentCardLabel : Prim → Bool
  | .textRun c _ _ _ => c == "DISKON" || c == "DISKON UP TO" || c == "MEMBER"
  | _ => false

/-- Is this primitive a text run with exactly the given content? -/
def isTextContent (s : String) : Prim → Bool
  | .textRun c _ _ _ => c == s
  | _ => false

/-! ## Helper lemmas -/

/-- The `fitTextToLines` loop never sets a size that is 1 or more below the
floor: starting strictly above `minSize - 1`, it stays strictly above. -/
theorem fitTextToLinesAux_gt (lines : ℚ → ℕ) (maxLines : ℕ) (minSize : ℚ) :
    ∀ (fuel : ℕ) (size : ℚ), minSize - 1 < size →
      minSize - 1 < fitTextToLinesAux lines maxLines minSize fuel size := by
  intro fuel
  induction fuel with
  | zero => intro size h; simpa [fitTextToLinesAux] using h
  | succ n ih =>
    intro size h
    by_cases hs : minSize < size
    · have h' : minSize - 1 < size - 1 := by linarith
      by_cases hf : lines (size - 1) ≤ maxLines
      · simpa [fitTextToLinesAux, hs, hf] using h'
      · simpa [fitTextToLinesAux, hs, hf] using ih (size - 1) h'
    · simpa [fitTextToLinesAux, hs] using h

/-- The `fitTextToWidth` loop never increases the size. -/
theorem fitTextToWidthAux_le (measure : ℚ → ℚ) (maxWidth minSize : ℚ) :
    ∀ (fuel : ℕ) (size : ℚ), fitTextToWidthAux measure maxWidth minSize fuel size ≤ size := by
  intro fuel
  induction fuel with
  | zero => intro size; simp [fitTextToWidthAux]
  | succ n ih =>
    intro size
    by_cases hc : minSize < size ∧ maxWidth < measure size
    · calc fitTextToWidthAux measure maxWidth minSize (n + 1) size
          = fitTextToWidthAux measure maxWidth minSize n (size - 1) := by
            simp [fitTextToWidthAux, hc]
        _ ≤ size - 1 := ih (size - 1)
        _ ≤ size := by linarith
    · simp [fitTextToWidthAux, hc]

/-- A pointwise wider measurement never yields a larger fitted size. -/
theorem fitTextToWidthAux_anti (f g : ℚ → ℚ) (hfg : ∀ z, f z ≤ g z)
    (maxWidth minSize : ℚ) :
    ∀ (fuel : ℕ) (size : ℚ),
      fitTextToWidthAux g maxWidth minSize fuel size ≤
        fitTextToWidthAux f maxWidth minSize fuel size := by
  intro fuel
  induction fuel with
  | zero => intro size; simp [fitTextToWidthAux]
  | succ n ih =>
    intro size
    by_cases hg : minSize < size ∧ maxWidth < g size
    · by_cases hf : minSize < size ∧ maxWidth < f size
      · calc fitTextToWidthAux g maxWidth minSize (n + 1) size
            = fitTextToWidthAux g maxWidth minSize n (size - 1) := by
              simp [fitTextToWidthAux, hg]
          _ ≤ fitTextToWidthAux f maxWidth minSize n (size - 1) := ih (size - 1)
          _ = fitTextToWidthAux f maxWidth minSize (n + 1) size := by
              simp [fitTextToWidthAux, hf]
      · calc fitTextToWidthAux g maxWidth minSize (n + 1) size
            = fitTextToWidthAux g maxWidth minSize n (size - 1) := by
              simp [fitTextToWidthAux, hg]
          _ ≤ size - 1 := fitTextToWidthAux_le g maxWidth minSize n (size - 1)
          _ ≤ size := by linarith
          _ = fitTextToWidthAux f maxWidth minSize (n + 1) size := by
              simp [fitTextToWidthAux, hf]
    · have hfc : ¬(minSize < size ∧ maxWidth < f size) := by
        intro hf
        exact hg ⟨hf.1, lt_of_lt_of_le hf.2 (hfg size)⟩
      simp [fitTextToWidthAux, hg, hfc]

/-- The head character of a string prefixed with `Rp ` is `R`. -/
theorem rp_head (s : String) : ("Rp " ++ s).data.head? = some 'R' := rfl

/-- A string prefixed with `Rp ` differs from any string not starting
with `R`. -/
theorem rp_ne (s t : String) (ht : t.data.head? ≠ some 'R') : ("Rp " ++ s) ≠ t :=
  fun h => ht (h ▸ rp_head s)

/-! ## Claim theorems -/

/-- C1 (counterexample): the claim says `exportPages([]) -> []` (zero pages),
but `totalPages = Math.max(products.length, 1)`, so the export driver
renders one blank page for the empty product list. -/
theorem C1_empty_export_cex :
    (getPageImages zeroMeasure (fun _ => true) defaultTemplate defaultSettings []).length = 1 := by
  rfl

/-- C1 (amended): for a nonempty product list the export driver returns
exactly one rendered page per product, in input order; the empty list
yields one blank page, not zero. -/
theorem C1_export_pages (M : TextMeasure) (loadOk : String → Bool)
    (tmpl : Template) (settings : PopSettingsState)
    (products : List Product) (h : products ≠ []) :
    (getPageImages M loadOk tmpl settings products).length = products.length ∧
    ∀ i : ℕ, i < products.length →
      (getPageImages M loadOk tmpl settings products)[i]? =
        some (renderPageCanvas M loadOk tmpl settings products[i]?) := by
  have h1 : 1 ≤ products.length := List.length_pos.mpr h
  have ht : totalPages products = products.length := Nat.max_eq_left h1
  constructor
  · simp [getPageImages, ht]
  · intro i hi
    simp only [getPageImages, ht, List.getElem?_map, List.getElem?_range hi, Option.map_some']

/-- C1 (witness): a one-product export yields exactly one page. -/
theorem C1_export_pages_witness :
    (getPageImages zeroMeasure (fun _ => true) defaultTemplate defaultSettings
      [sampleProduct]).length = 1 :=
  (C1_export_pages zeroMeasure (fun _ => true) defaultTemplate defaultSettings
    [sampleProduct] (by simp)).1

/-- C2 (counterexample): a product with `discountType = 'cut'` but a zero
flat amount and a nonzero percent tier still takes the percent badge path
(`cutValue` is 0, so the `else if` over the percent tiers fires and a
`DISKON` card is emitted), refuting the claim that the percent path is
never taken for cut products. -/
theorem C2_cut_percent_cex :
    cutZeroProduct.discountType = some DiscountType.cut ∧
    (bottomBadgePrims zeroMeasure defaultSettings (groupScaleOf defaultSettings)
      (contentWidthOf defaultSettings A4_WIDTH) cutZeroProduct).any isPercentCardLabel = true := by
  exact ⟨rfl, by rfl⟩

/-- C2 (amended): for a product with `discountType = 'cut'` and a positive
flat amount, the badge region is exactly the flat-cut card and no percent
card label is emitted, regardless of the percent tier fields. -/
theorem C2_cut_flat_badge (M : TextMeasure) (s : PopSettingsState)
    (gs cw : ℚ) (p : Product)
    (h1 : p.discountType = some DiscountType.cut) (h2 : 0 < discountAmountVal p) :
    bottomBadgePrims M s gs cw p =
      flatCutBadgePrims s gs (isDiscountOnly p) (discountAmountVal p) ∧
    (bottomBadgePrims M s gs cw p).any isPercentCardLabel = false := by
  have hcv : cutValue p = discountAmountVal p := by simp [cutValue, h1]
  have hflat : bottomBadgePrims M s gs cw p =
      flatCutBadgePrims s gs (isDiscountOnly p) (discountAmountVal p) := by
    rw [bottomBadgePrims, hcv, if_pos h2]
  refine ⟨hflat, ?_⟩
  rw [hflat]
  simp [flatCutBadgePrims, isPercentCardLabel,
    rp_ne (formatPrice (discountAmountVal p)) "DISKON" (by decide),
    rp_ne (formatPrice (discountAmountVal p)) "DISKON UP TO" (by decide),
    rp_ne (formatPrice (discountAmountVal p)) "MEMBER" (by decide)]

/-- C2 (witness): the amended statement at a concrete cut product with a
positive flat amount and nonzero percent tiers. -/
theorem C2_cut_flat_badge_witness :
    bottomBadgePrims zeroMeasure defaultSettings 1 100 cutPosProduct =
      flatCutBadgePrims defaultSettings 1 (isDiscountOnly cutPosProduct)
        (discountAmountVal cutPosProduct) ∧
    (bottomBadgePrims zeroMeasure defaultSettings 1 100 cutPosProduct).any
      isPercentCardLabel = false :=
  C2_cut_flat_badge zeroMeasure defaultSettings 1 100 cutPosProduct rfl (by decide)

/-- C3 (counterexample): a granite product with both per-meter prices
present, at most one price row, but discount-only (no positive price row
and a nonzero discount) does not take the granite branch — the guard also
requires `!isDiscountOnly` — and the whole price area is skipped instead of
falling through to the single/multi-row branch. -/
theorem C3_granite_guard_cex :
    isGranite graniteDiscountOnly = true ∧
    hasMeterPrice graniteDiscountOnly = true ∧
    (priceRows graniteDiscountOnly).length ≤ 1 ∧
    graniteBranchTaken graniteDiscountOnly = false ∧
    priceAreaPrims zeroMeasure defaultSettings 1 100 50 graniteDiscountOnly = [] := by
  refine ⟨by rfl, by rfl, by decide, by rfl, by rfl⟩

/-- C3 (amended): the granite two-column branch is taken iff the uppercased
description contains `GRANIT`, both per-meter price fields are finite
(present), at most one price row survives, and the product is not
discount-only; in every other case the (total) layout falls through to the
single/multi-row branch, or skips the price area entirely when
discount-only. -/
theorem C3_granite_branch_iff (p : Product) :
    graniteBranchTaken p = true ↔
      (strContains (graniteLabel p) "GRANIT" = true ∧
        p.basePricePerMeter.isSome = true ∧
        p.finalPricePerMeter.isSome = true ∧
        (priceRows p).length ≤ 1 ∧
        ¬(hasAnyDiscount p = true ∧ priceRows p = [])) := by
  simp only [graniteBranchTaken, isGranite, hasMeterPrice, isDiscountOnly, hasNoPrice,
    Bool.and_eq_true, Bool.not_eq_true', Bool.and_eq_false_iff, decide_eq_true_iff,
    beq_iff_eq, Bool.not_eq_true]
  constructor
  · rintro ⟨⟨⟨hd, hg⟩, ⟨hf, hb⟩⟩, hl⟩
    refine ⟨hg, hb, hf, hl, ?_⟩
    rintro ⟨ha, hr⟩
    rcases hd with hd | hd
    · rw [ha] at hd; cases hd
    · rw [hr] at hd
      simp at hd
  · rintro ⟨hg, hb, hf, hl, hno⟩
    refine ⟨⟨⟨?_, hg⟩, hf, hb⟩, hl⟩
    by_cases ha : hasAnyDiscount p = true
    · right
      simp only [beq_eq_false_iff_ne, ne_eq]
      intro hr
      exact hno ⟨ha, hr⟩
    · left
      simp [Bool.not_eq_true] at ha
      exact ha

/-- C4 (counterexample): with a custom template whose image loads, an
undefined product still gets the template image drawn — the claim that
nothing at all is drawn on an empty page is false for custom templates. -/
theorem C4_template_drawn_cex :
    (renderPageCanvas zeroMeasure (fun _ => true) customTemplate defaultSettings none).objects =
      [CanvasObject.templateImage "blob:tpl"] := by
  rfl

/-- C4 (amended): for an undefined product the surface is cleared to white
and no label primitives are drawn; the page is completely empty except
that a custom template whose image loads still draws the template image. -/
theorem C4_empty_page (M : TextMeasure) (loadOk : String → Bool)
    (tmpl : Template) (settings : PopSettingsState) :
    (renderPageCanvas M loadOk tmpl settings none).backgroundColor = "#ffffff" ∧
    (renderPageCanvas M loadOk tmpl settings none).objects =
      (if (tmpl.ttype == some TemplateKind.custom && strTruthy tmpl.imageUrl &&
            loadOk (tmpl.imageUrl.getD "")) then
        [CanvasObject.templateImage (tmpl.imageUrl.getD "")]
      else []) := by
  constructor
  · rw [renderPageCanvas]
    split <;> [skip; rfl]
    split <;> rfl
  · rw [renderPageCanvas]
    by_cases h1 : (tmpl.ttype == some TemplateKind.custom) = true ∧ strTruthy tmpl.imageUrl = true
    · rw [if_pos h1]
      by_cases h2 : loadOk (tmpl.imageUrl.getD "") = true
      · rw [if_pos h2]
        simp [h1.1, h1.2, h2]
      · rw [if_neg h2]
        simp only [Bool.not_eq_true] at h2
        simp [h2]
    · rw [if_neg h1]
      rcases not_and_or.mp h1 with h | h <;>
        simp only [Bool.not_eq_true] at h <;> simp [h]

/-- C5 (counterexample): with a starting size of 10 the floor is
`max(12, 7) = 12`, the shrink loop cannot run (`10 > 12` is false), and the
box is left at font size 10, strictly below the floor — refuting the claim
that the final size is always at least `max(12, startingSize*0.7)`. -/
theorem C5_floor_undershoot_cex :
    fitTextToLines (fun _ => 5) 1 10 = 10 ∧ (10 : ℚ) < max 12 (10 * mkRat 7 10) := by
  have hmax : max (12 : ℚ) (10 * mkRat 7 10) = 12 := by
    rw [max_eq_left]
    norm_num [Rat.mkRat_eq_div]
  constructor
  · rw [fitTextToLines, if_neg (by norm_num)]
    rw [hmax]
    norm_num [fitTextToLinesAux]
  · rw [hmax]
    norm_num

/-- C5 (amended): the final size left by fit-to-line-count is never more
than 1 below `max(12, startingSize*0.7)` and never below the starting size
when the starting size is already below the floor:
`min(startingSize, floor - 1) ≤ result` always holds, but the literal floor
can be undershot. -/
theorem C5_floor_bound (lines : ℚ → ℕ) (maxLines : ℕ) (baseSize : ℚ) :
    min baseSize (max 12 (baseSize * mkRat 7 10) - 1) ≤
      fitTextToLines lines maxLines baseSize := by
  rw [fitTextToLines]
  by_cases h0 : lines baseSize ≤ maxLines
  · rw [if_pos h0]
    exact min_le_left _ _
  · rw [if_neg h0]
    by_cases hb : max 12 (baseSize * mkRat 7 10) - 1 < baseSize
    · have h := fitTextToLinesAux_gt lines maxLines (max 12 (baseSize * mkRat 7 10))
        (⌈baseSize - max 12 (baseSize * mkRat 7 10)⌉.toNat + 1) baseSize hb
      exact le_of_lt (lt_of_le_of_lt (min_le_right _ _) h)
    · have hbm : ¬ (max 12 (baseSize * mkRat 7 10) < baseSize) := by
        intro hlt
        exact hb (by linarith)
      rw [fitTextToLinesAux, if_neg hbm]
      exact min_le_left _ _

/-- C6 (counterexample): a base discount of 12.25 percent renders the
leftmost card value as `12.25%` — two decimal places survive (`toFixed(2)`
only strips a trailing zero), refuting "at most one decimal place". -/
theorem C6_two_decimals_cex :
    badgeItems percentQuarter =
      [{ label := "DISKON", value := "12.25%", colors := ("#ef4444", "#ef4444") }] ∧
    lastDotSplit (formatPercentValue (mkRat 49 4)) = some ("12", "25") := by
  have hfl : (⌊(mkRat 49 4 : ℚ) * 100 + mkRat 1 2⌋ : ℤ) = 1225 := by
    norm_num [Rat.mkRat_eq_div]
  have hf : formatPercentValue (mkRat 49 4) = "12.25" := by
    simp only [formatPercentValue, toFixed2, hfl]
    rfl
  have hparts : discountParts percentQuarter = [mkRat 49 4] := by rfl
  have hval : discountValueStr percentQuarter = "12.25%" := by
    rw [discountValueStr, hparts, List.map_cons, List.map_nil, hf]
    rfl
  constructor
  · rw [badgeItems, hval, hparts]
    decide
  · rw [hf]
    rfl

/-- C6 (amended): the leftmost percent card joins the positive percent
tiers with ` + `, each formatted by `toFixed(2)` with a trailing `.00`
removed and a trailing second-place zero removed (so up to two decimal
places remain, e.g. `12.25`), and its label is `DISKON UP TO` exactly when
the `upTo` flag is set. -/
theorem C6_percent_card (p : Product) (h : discountParts p ≠ []) :
    (badgeItems p).head? = some
      { label := if p.upTo.getD false then "DISKON UP TO" else "DISKON",
        value := String.intercalate " + "
          ((discountParts p).map (fun v => formatPercentValue v ++ "%")),
        colors := ("#ef4444", "#ef4444") } ∧
    formatPercentValue 12 = "12" ∧
    formatPercentValue (mkRat 25 2) = "12.5" ∧
    formatPercentValue (mkRat 49 4) = "12.25" := by
  refine ⟨?_, ?_, ?_, ?_⟩
  · have hlen : 0 < (discountParts p).length := List.length_pos.mpr h
    rw [badgeItems, if_pos hlen]
    rfl
  · have hfl : (⌊(12 : ℚ) * 100 + mkRat 1 2⌋ : ℤ) = 1200 := by
      norm_num [Rat.mkRat_eq_div]
    simp only [formatPercentValue, toFixed2, hfl]
    rfl
  · have hfl : (⌊(mkRat 25 2 : ℚ) * 100 + mkRat 1 2⌋ : ℤ) = 1250 := by
      norm_num [Rat.mkRat_eq_div]
    simp only [formatPercentValue, toFixed2, hfl]
    rfl
  · have hfl : (⌊(mkRat 49 4 : ℚ) * 100 + mkRat 1 2⌋ : ℤ) = 1225 := by
      norm_num [Rat.mkRat_eq_div]
    simp only [formatPercentValue, toFixed2, hfl]
    rfl

/-- C6 (witness): the amended statement at the concrete product with a
12.25 percent base discount. -/
theorem C6_percent_card_witness :
    (badgeItems percentQuarter).head? = some
      { label := if percentQuarter.upTo.getD false then "DISKON UP TO" else "DISKON",
        value := String.intercalate " + "
          ((discountParts percentQuarter).map (fun v => formatPercentValue v ++ "%")),
        colors := ("#ef4444", "#ef4444") } ∧
    formatPercentValue 12 = "12" ∧
    formatPercentValue (mkRat 25 2) = "12.5" ∧
    formatPercentValue (mkRat 49 4) = "12.25" :=
  C6_percent_card percentQuarter (by decide)

/-- C7 (confirmed): fit-to-pixel-width is antitone under text extension:
when the measurement never reports the extended text narrower than the
original at any size, the fitted size of the extended text is at most that
of the original, for the same width budget, starting size and minimum. -/
theorem C7_fit_width_monotone (M : TextMeasure) (s ext : String)
    (maxWidth baseSize minSize : ℚ)
    (hmono : ∀ sz : ℚ, M.width s sz "700" ≤ M.width (s ++ ext) sz "700") :
    fitTextToWidth (fun sz => M.width (s ++ ext) sz "700") maxWidth baseSize minSize ≤
      fitTextToWidth (fun sz => M.width s sz "700") maxWidth baseSize minSize := by
  rw [fitTextToWidth, fitTextToWidth]
  exact fitTextToWidthAux_anti _ _ hmono maxWidth minSize _ baseSize

/-- C7 (witness): the monotonicity statement applied at a concrete
measurement oracle and extension. -/
theorem C7_fit_width_monotone_witness :
    fitTextToWidth (fun sz => zeroMeasure.width ("A" ++ "B") sz "700") 10 20 5 ≤
      fitTextToWidth (fun sz => zeroMeasure.width "A" sz "700") 10 20 5 :=
  C7_fit_width_monotone zeroMeasure "A" "B" 10 20 5 (fun _ => le_refl 0)

/-- C8 (confirmed): the layout engine is total — it is a function in this
embedding, so it cannot throw — and it always emits at least one primitive
(the product name box is unconditional), so a structurally valid product
always yields a nonempty group. -/
theorem C8_layout_total (M : TextMeasure) (p : Product) (x y w h : ℚ)
    (settings : PopSettingsState) (hct : Bool) :
    (drawPOPItem M p x y w h settings hct).objects ≠ [] := by
  simp [drawPOPItem, namePrims]

/-- C9 (confirmed): a non-cut product whose base discount percent exceeds
100 gets the flat-cut badge — header `POTONGAN HARGA` with the base
discount rendered as a currency amount — and no percent card label. -/
theorem C9_over100_flat_badge (M : TextMeasure) (s : PopSettingsState)
    (gs cw : ℚ) (p : Product)
    (h1 : p.discountType ≠ some DiscountType.cut) (h2 : 100 < p.discount) :
    (bottomBadgePrims M s gs cw p).any (isTextContent "POTONGAN HARGA") = true ∧
    (bottomBadgePrims M s gs cw p).any
      (isTextContent ("Rp " ++ formatPrice p.discount)) = true ∧
    (bottomBadgePrims M s gs cw p).any isPercentCardLabel = false := by
  have hb : (p.discountType == some DiscountType.cut) = false := by
    simp [h1]
  have hcv : cutValue p = p.discount := by
    have h2' : 100 < baseDiscount p := h2
    rw [cutValue, hb]
    simp only [Bool.false_eq_true, if_false]
    exact if_pos h2'
  have hpos : 0 < cutValue p := by
    rw [hcv]; linarith
  have hflat : bottomBadgePrims M s gs cw p =
      flatCutBadgePrims s gs (isDiscountOnly p) (cutValue p) := by
    rw [bottomBadgePrims, if_pos hpos]
  refine ⟨?_, ?_, ?_⟩
  · rw [hflat]
    simp [flatCutBadgePrims, isTextContent]
  · rw [hflat, hcv]
    simp [flatCutBadgePrims, isTextContent]
  · rw [hflat, hcv]
    simp [flatCutBadgePrims, isPercentCardLabel,
      rp_ne (formatPrice p.discount) "DISKON" (by decide),
      rp_ne (formatPrice p.discount) "DISKON UP TO" (by decide),
      rp_ne (formatPrice p.discount) "MEMBER" (by decide)]

/-- C9 (witness): the statement at a concrete percent product with a base
discount of 150. -/
theorem C9_over100_flat_badge_witness :
    (bottomBadgePrims zeroMeasure defaultSettings 1 100 over100Product).any
      (isTextContent "POTONGAN HARGA") = true ∧
    (bottomBadgePrims zeroMeasure defaultSettings 1 100 over100Product).any
      (isTextContent ("Rp " ++ formatPrice over100Product.discount)) = true ∧
    (bottomBadgePrims zeroMeasure defaultSettings 1 100 over100Product).any
      isPercentCardLabel = false :=
  C9_over100_flat_badge zeroMeasure defaultSettings 1 100 over100Product
    (by decide) (by decide)

/-- C10 (confirmed): rows surviving the pre-layout filter have a positive
normal or promo price (both-nonpositive rows are dropped), and in the
multi-row branch a row without a positive promo price is rendered as a
promo block showing the normal price with no strikethrough primitives,
even when the strike toggle is on. -/
theorem C10_multirow_fallback :
    (∀ (p : Product) (row : CustomPriceOption), row ∈ priceRows p →
      0 < row.normalPrice ∨ 0 < row.promoPrice) ∧
    (∀ (M : TextMeasure) (s : PopSettingsState) (gs cw ps rs ss : ℚ)
      (row : CustomPriceOption), row.promoPrice ≤ 0 →
      multiRowRowPrims M s gs cw ps rs ss row =
        renderPriceBlock M gs ps row.normalPrice row.uom rs (some (cw * 0.9))) := by
  constructor
  · intro p row hmem
    have := (List.mem_filter.mp (by rw [priceRows] at hmem; exact hmem)).2
    simpa [decide_eq_true_iff] using this
  · intro M s gs cw ps rs ss row h
    rw [multiRowRowPrims]
    simp only [not_lt.mpr h, if_false, lt_irrefl, decide_False, Bool.and_false,
      Bool.false_and]
    simp

/-- C10 (witness): the statement at the concrete second row of a two-row
product (normal 110000, promo 0). -/
theorem C10_multirow_fallback_witness :
    (0 < (110000 : ℚ) ∨ 0 < (0 : ℚ)) ∧
    multiRowRowPrims zeroMeasure defaultSettings 1 100 50 1 1
      { uom := some "Dus", normalPrice := 110000, promoPrice := 0 } =
      renderPriceBlock zeroMeasure 1 50 110000 (some "Dus") 1 (some (100 * 0.9)) :=
  ⟨C10_multirow_fallback.1 twoRowProduct
      { uom := some "Dus", normalPrice := 110000, promoPrice := 0 } (by decide),
    C10_multirow_fallback.2 zeroMeasure defaultSettings 1 100 50 1 1
      { uom := some "Dus", normalPrice := 110000, promoPrice := 0 } (by decide)⟩
